import Mathlib

/-!
Verification of the rust-oslo-policy rule engine: a shallow embedding of the
AST (ast.rs), the PEG rule parser (parser.rs), attribute interpolation
(request.rs), and the rule-set evaluator with pluggable checkers
(ruleset.rs, checkers.rs), together with theorems about them.
-/

set_option maxRecDepth 4096

namespace OsloPolicy

/-- The left-hand side of a check (ast.rs, enum LeftHandSide). -/
inductive LeftHandSide where
  | literal (s : String)
  | identifier (s : String)
deriving DecidableEq

/-- A policy rule expression (ast.rs, enum Expression). -/
inductive Expression where
  | const (b : Bool)
  | check (lhs : LeftHandSide) (rhs : String)
  | and (x y : Expression)
  | or (x y : Expression)
  | not (x : Expression)
deriving DecidableEq

/-- Attributes belonging to a single request (request.rs, struct Request).
The token trait object is flattened into its two methods, and the target
trait object into its single method. -/
structure Request where
  tokenApi : String → Option String
  hasRole : String → Bool
  target : String → Option String

/-- A checker registered with a rule set (checkers.rs, trait Checker).
The two built-in checkers are constructors; a host-defined checker is
modelled by a custom boolean function of the request and the rhs. -/
inductive Checker where
  | ruleChecker
  | roleChecker
  | custom (f : Request → String → Bool)

/-- A container and evaluation engine for policy rules (ruleset.rs, struct
RuleSet). The two hash maps are modelled as lookup functions. -/
structure RuleSet where
  rules : String → Option Expression
  checkers : String → Option Checker

/- ---------------------------------------------------------------------
Parser (parser.rs, peg grammar policy_parser). The PEG operates on the
character list of the input; fuel bounds the recursion depth and is chosen
large enough for every input (each unit of fuel either consumes input or
descends one grammar level).
--------------------------------------------------------------------- -/

/-- Whitespace characters of the grammar rule underscore (parser.rs). -/
def isWsChar (c : Char) : Bool :=
  c == ' ' || c == '\t' || c == '\n'

/-- Characters permitted inside the lhs of a check (rule check_lhs_inner):
everything except whitespace, colon, quotes and backslash. -/
def isLhsChar (c : Char) : Bool :=
  !(isWsChar c || c == ':' || c == '\'' || c == '"' || c == '\\')

/-- Characters permitted inside the rhs of a check (rule check_rhs):
everything except whitespace. -/
def isRhsChar (c : Char) : Bool :=
  !(isWsChar c)

/-- Consume the optional whitespace of the grammar rule underscore. -/
def dropWs (s : List Char) : List Char :=
  s.dropWhile isWsChar

/-- Match a literal token of the grammar, returning the rest of the input. -/
def matchTok : List Char → List Char → Option (List Char)
  | [], s => some s
  | _ :: _, [] => none
  | c :: cs, d :: s => if c = d then matchTok cs s else none

/-- Parse one-or-more lhs characters (rule check_lhs_inner), greedily. -/
def lhsChars (s : List Char) : Option (List Char × List Char) :=
  let cs := s.takeWhile isLhsChar
  if cs.isEmpty then none else some (cs, s.dropWhile isLhsChar)

/-- Parse one-or-more rhs characters (rule check_rhs), greedily. -/
def rhsChars (s : List Char) : Option (List Char × List Char) :=
  let cs := s.takeWhile isRhsChar
  if cs.isEmpty then none else some (cs, s.dropWhile isRhsChar)

/-- Parse a quoted string literal lhs with quote character q (one ordered
alternative of rule check_lhs). -/
def pQuoted (q : Char) (s : List Char) : Option (LeftHandSide × List Char) :=
  match s with
  | [] => none
  | c :: r =>
    if c = q then
      match lhsChars r with
      | none => none
      | some (cs, r2) =>
        match r2 with
        | [] => none
        | d :: r3 => if d = q then some (.literal (String.mk cs), r3) else none
    else none

/-- Parse the lhs of a check (rule check_lhs): single-quoted literal,
double-quoted literal, or bare identifier, tried in that order. -/
def pCheckLhs (s : List Char) : Option (LeftHandSide × List Char) :=
  match pQuoted '\'' s with
  | some r => some r
  | none =>
    match pQuoted '"' s with
    | some r => some r
    | none =>
      match lhsChars s with
      | some (cs, r) => some (.identifier (String.mk cs), r)
      | none => none

/-- Parse a check, lhs colon rhs (last alternative of rule atom_inner). -/
def pCheck (s : List Char) : Option (Expression × List Char) :=
  match pCheckLhs s with
  | none => none
  | some (l, r) =>
    match r with
    | ':' :: r2 =>
      match rhsChars r2 with
      | some (cs, r3) => some (.check l (String.mk cs), r3)
      | none => none
    | _ => none

mutual

/-- Grammar rule expr: optional whitespace around expr_inner. -/
def pExpr : Nat → List Char → Option (Expression × List Char)
  | 0, _ => none
  | n + 1, s =>
    match pOr n (dropWs s) with
    | some (e, r) => some (e, dropWs r)
    | none => none

/-- Lowest precedence level of rule expr_inner: left-associative or. -/
def pOr : Nat → List Char → Option (Expression × List Char)
  | 0, _ => none
  | n + 1, s =>
    match pAnd n s with
    | some (x, r) => pOrTail n x r
    | none => none

/-- Iterated infix or; a failed iteration backtracks and stops the loop. -/
def pOrTail : Nat → Expression → List Char → Option (Expression × List Char)
  | 0, _, _ => none
  | n + 1, x, s =>
    match matchTok ['o', 'r'] (dropWs s) with
    | some s2 =>
      match pAnd n (dropWs s2) with
      | some (y, r) => pOrTail n (.or x y) r
      | none => some (x, s)
    | none => some (x, s)

/-- Middle precedence level of rule expr_inner: left-associative and. -/
def pAnd : Nat → List Char → Option (Expression × List Char)
  | 0, _ => none
  | n + 1, s =>
    match pNot n s with
    | some (x, r) => pAndTail n x r
    | none => none

/-- Iterated infix and; a failed iteration backtracks and stops the loop. -/
def pAndTail : Nat → Expression → List Char → Option (Expression × List Char)
  | 0, _, _ => none
  | n + 1, x, s =>
    match matchTok ['a', 'n', 'd'] (dropWs s) with
    | some s2 =>
      match pNot n (dropWs s2) with
      | some (y, r) => pAndTail n (.and x y) r
      | none => some (x, s)
    | none => some (x, s)

/-- Tightest level of rule expr_inner: the prefix operator not (whose
operand is parsed at this same level) with fallback to an atom, as ordered
PEG alternatives. -/
def pNot : Nat → List Char → Option (Expression × List Char)
  | 0, _ => none
  | n + 1, s =>
    match matchTok ['n', 'o', 't'] s with
    | some s2 =>
      match pNot n s2 with
      | some (e, r) => some (.not e, r)
      | none => pAtom n s
    | none => pAtom n s

/-- Grammar rule atom: optional whitespace around atom_inner. -/
def pAtom : Nat → List Char → Option (Expression × List Char)
  | 0, _ => none
  | n + 1, s =>
    match pAtomInner n (dropWs s) with
    | some (e, r) => some (e, dropWs r)
    | none => none

/-- Grammar rule atom_inner: the constants, a parenthesized expression, or
a check, as ordered PEG alternatives with backtracking. -/
def pAtomInner : Nat → List Char → Option (Expression × List Char)
  | 0, _ => none
  | n + 1, s =>
    match s with
    | '@' :: r => some (.const true, r)
    | '!' :: r => some (.const false, r)
    | '(' :: r =>
      match pExpr n r with
      | some (e, r2) =>
        match r2 with
        | ')' :: r3 => some (e, r3)
        | _ => pCheck s
      | none => pCheck s
    | _ => pCheck s

end

/-- Fuel that is always sufficient for the parser on the given input. -/
def parserFuel (input : String) : Nat :=
  100 * (input.length + 1)

/-- Parse a rule (parser.rs, fn parse_expression): run the expr rule and
require that the entire input is consumed, as the generated rust-peg entry
point does. A parse error is modelled as none. -/
def parseExpression (input : String) : Option Expression :=
  match pExpr (parserFuel input) input.data with
  | some (e, []) => some e
  | _ => none

/- ---------------------------------------------------------------------
Attribute interpolation (request.rs, fn resolve_target_attr_refs).
--------------------------------------------------------------------- -/

/-- Strip the two-character close delimiter from the end of a character
list, mirroring str::strip_suffix applied with the close paren and s: the
result is some m exactly when the input is m followed by the delimiter. -/
def stripRS (l : List Char) : Option (List Char) :=
  match l.reverse with
  | 's' :: ')' :: rest => some rest.reverse
  | _ => none

/-- Resolve references to target object attributes in the percent-paren
syntax on the rhs of a check (request.rs, fn resolve_target_attr_refs):
strip the two-character open delimiter from the front, then the
two-character close delimiter from the back; if either is missing the
input is returned verbatim, otherwise the target attribute named by what
is left in the middle is looked up. -/
def resolveTargetAttrRefs (input : String) (target : String → Option String) :
    Option String :=
  match input.data with
  | '%' :: '(' :: rest =>
    match stripRS rest with
    | some mid => target (String.mk mid)
    | none => some input
  | _ => some input

/- ---------------------------------------------------------------------
Evaluation (ruleset.rs, impl RuleSet). The recursion through the rule
checker is unbounded in the source (bounded only by the call stack), so
the evaluator takes fuel; exhausted fuel yields false.
--------------------------------------------------------------------- -/

/-- Execute a checker (checkers.rs, impl Checker for RuleChecker and
RoleChecker), abstracted over the recursive evaluation function that the
rule checker invokes on the owning rule set. -/
def runCheckerF (recur : String → Bool) (rq : Request) : Checker → String → Bool
  | .ruleChecker, v => recur v
  | .roleChecker, v => rq.hasRole v
  | .custom f, v => f rq v

/-- Evaluate a single check (ruleset.rs, fn evaluate_check), abstracted
over the recursive evaluation function: interpolate the rhs (a missing
target attribute fails the check), compare a literal lhs verbatim, and
dispatch an identifier lhs to a registered checker or else to a token API
attribute (a missing attribute fails the check). -/
def evaluateCheckF (recur : String → Bool) (rs : RuleSet) (rq : Request)
    (lhs : LeftHandSide) (rhs : String) : Bool :=
  match resolveTargetAttrRefs rhs rq.target with
  | none => false
  | some v =>
    match lhs with
    | .literal s => s == v
    | .identifier id =>
      match rs.checkers id with
      | some c => runCheckerF recur rq c v
      | none =>
        match rq.tokenApi id with
        | some w => w == v
        | none => false

/-- Evaluate an expression (ruleset.rs, fn evaluate_expr). The rule
checker re-enters rule lookup and expression evaluation at one unit less
fuel. -/
def evalExpr : Nat → RuleSet → Request → Expression → Bool
  | _, _, _, .const b => b
  | fuel, rs, rq, .and x y => evalExpr fuel rs rq x && evalExpr fuel rs rq y
  | fuel, rs, rq, .or x y => evalExpr fuel rs rq x || evalExpr fuel rs rq y
  | fuel, rs, rq, .not x => !(evalExpr fuel rs rq x)
  | fuel, rs, rq, .check lhs rhs =>
    evaluateCheckF
      (fun w =>
        match fuel with
        | 0 => false
        | m + 1 =>
          match rs.rules w with
          | some e => evalExpr m rs rq e
          | none => false)
      rs rq lhs rhs
termination_by fuel _ _ e => (fuel, sizeOf e)

/-- Evaluate the named rule for the given request (ruleset.rs, fn
evaluate): an absent rule evaluates to false. -/
def evaluate (fuel : Nat) (rs : RuleSet) (ruleName : String) (rq : Request) : Bool :=
  match rs.rules ruleName with
  | some e => evalExpr fuel rs rq e
  | none => false

/-- The recursive evaluation function handed to checkers at a given fuel
level: the rule checker recursion spends one unit of fuel. -/
def ruleRecur (fuel : Nat) (rs : RuleSet) (rq : Request) : String → Bool :=
  fun w =>
    match fuel with
    | 0 => false
    | m + 1 => evaluate m rs w rq

/-- Execute a checker against a rule set and request (checkers.rs, method
Checker::check). -/
def runChecker (fuel : Nat) (rs : RuleSet) (rq : Request) (c : Checker)
    (v : String) : Bool :=
  runCheckerF (ruleRecur fuel rs rq) rq c v

/-- Evaluate a single check (ruleset.rs, fn evaluate_check). -/
def evaluateCheck (fuel : Nat) (rs : RuleSet) (rq : Request)
    (lhs : LeftHandSide) (rhs : String) : Bool :=
  evaluateCheckF (ruleRecur fuel rs rq) rs rq lhs rhs

/- ---------------------------------------------------------------------
Rule set construction (ruleset.rs).
--------------------------------------------------------------------- -/

/-- Error type returned by add_rule (ruleset.rs, struct ParseError); it
carries the name of the offending rule. -/
structure ParseError where
  ruleName : String
deriving DecidableEq

/-- Add a custom checker (ruleset.rs, fn add_checker): insert or replace. -/
def RuleSet.addChecker (rs : RuleSet) (name : String) (c : Checker) : RuleSet :=
  { rs with checkers := fun n => if n = name then some c else rs.checkers n }

/-- A new empty rule set with the default checkers registered
(ruleset.rs, fn new). -/
def RuleSet.new : RuleSet :=
  (RuleSet.addChecker
    (RuleSet.addChecker
      { rules := fun _ => none, checkers := fun _ => none }
      "rule" .ruleChecker)
    "role" .roleChecker)

/-- Parse a single rule and add it to the rule set (ruleset.rs, fn
add_rule). The mutable receiver is modelled by returning the updated rule
set next to the optional error: on success the parsed expression is
stored under the name, on failure the rule set is returned unchanged
together with the error. -/
def RuleSet.addRule (rs : RuleSet) (name : String) (text : String) :
    RuleSet × Option ParseError :=
  match parseExpression text with
  | some e =>
    ({ rs with rules := fun n => if n = name then some e else rs.rules n }, none)
  | none => (rs, some ⟨name⟩)

end OsloPolicy

namespace OsloPolicy

/- ---------------------------------------------------------------------
Concrete witness data.
--------------------------------------------------------------------- -/

/-- A concrete request used by witnesses: one token API attribute, one
role, no target attributes. -/
def reqW : Request :=
  { tokenApi := fun n => if n = "user_id" then some "u-1" else none
    hasRole := fun r => r == "member"
    target := fun _ => none }

/-- A concrete rule set used by witnesses: the default rule set with one
rule named r that always allows. -/
def rsW : RuleSet :=
  (RuleSet.new.addRule "r" "@").1

/- ---------------------------------------------------------------------
Helper lemmas.
--------------------------------------------------------------------- -/

/-- Two strings with equal character data are equal. -/
theorem strDataEq {s t : String} (h : s.data = t.data) : s = t := by
  cases s
  cases t
  exact congrArg String.mk h

/-- Stripping the close delimiter from a list that ends in it succeeds and
drops exactly the final two characters. -/
theorem stripRS_append (l : List Char) : stripRS (l ++ [')', 's']) = some l := by
  unfold stripRS
  have h : (l ++ [')', 's']).reverse = 's' :: ')' :: l.reverse := by simp
  rw [h]
  show some l.reverse.reverse = some l
  rw [List.reverse_reverse]

/-- Stripping the close delimiter only succeeds on lists that end in it,
and then returns everything before it. -/
theorem stripRS_eq_some {l m : List Char} (h : stripRS l = some m) :
    l = m ++ [')', 's'] := by
  unfold stripRS at h
  split at h
  · rename_i rest heq
    have hm : rest.reverse = m := by
      injection h
    have hl := congrArg List.reverse heq
    rw [List.reverse_reverse] at hl
    rw [hl, ← hm]
    simp
  · cases h

/-- Interpolation on a full-span reference resolves to the lookup of the
attribute name between the delimiters, whatever that name contains. -/
theorem resolve_interp (name : String) (target : String → Option String) :
    resolveTargetAttrRefs ("%(" ++ name ++ ")s") target = target name := by
  have hdata : ("%(" ++ name ++ ")s").data = '%' :: '(' :: (name.data ++ [')', 's']) := by
    rw [String.data_append, String.data_append]
    rfl
  unfold resolveTargetAttrRefs
  rw [hdata]
  show (match stripRS (name.data ++ [')', 's']) with
    | some mid => target (String.mk mid)
    | none => some ("%(" ++ name ++ ")s")) = target name
  rw [stripRS_append]

/-- Interpolation on any input that is not a full-span reference returns
the input verbatim. -/
theorem resolve_verbatim (input : String) (target : String → Option String)
    (h : ∀ name : String, input ≠ "%(" ++ name ++ ")s") :
    resolveTargetAttrRefs input target = some input := by
  unfold resolveTargetAttrRefs
  split
  · rename_i rest heq
    cases h2 : stripRS rest with
    | some mid =>
      exfalso
      apply h (String.mk mid)
      apply strDataEq
      rw [heq, stripRS_eq_some h2, String.data_append, String.data_append]
      rfl
    | none => rfl
  · rfl

/-- The empty string is not a full-span interpolation reference. -/
theorem empty_ne_interp (name : String) : ("" : String) ≠ "%(" ++ name ++ ")s" := by
  intro h
  have h2 := congrArg String.data h
  rw [String.data_append, String.data_append] at h2
  simp at h2

end OsloPolicy

namespace OsloPolicy

/- ---------------------------------------------------------------------
Claim theorems.
--------------------------------------------------------------------- -/

/-- C1: for a check whose lhs is Identifier name, once rhs interpolation
has produced a resolved string v, the check's result is the registered
checker's return value on the rule set, the request and v when a checker
is registered under name; otherwise it is whether the token API attribute
name equals v when that attribute is present, and false when it is
absent. -/
theorem evaluate_check_identifier_dispatch
    (fuel : Nat) (rs : RuleSet) (rq : Request) (name rhs v : String)
    (hres : resolveTargetAttrRefs rhs rq.target = some v) :
    (∀ c, rs.checkers name = some c →
      evaluateCheck fuel rs rq (.identifier name) rhs = runChecker fuel rs rq c v)
    ∧ (rs.checkers name = none → ∀ w, rq.tokenApi name = some w →
      evaluateCheck fuel rs rq (.identifier name) rhs = (w == v))
    ∧ (rs.checkers name = none → rq.tokenApi name = none →
      evaluateCheck fuel rs rq (.identifier name) rhs = false) := by
  refine ⟨?_, ?_, ?_⟩
  · intro c hc
    unfold evaluateCheck evaluateCheckF runChecker
    rw [hres]
    simp only [hc]
  · intro hc w hw
    unfold evaluateCheck evaluateCheckF
    rw [hres]
    simp only [hc, hw]
  · intro hc hw
    unfold evaluateCheck evaluateCheckF
    rw [hres]
    simp only [hc, hw]

/-- C1 witness: concrete instances of the three dispatch outcomes. -/
theorem evaluate_check_identifier_dispatch_witness :
    evaluateCheck 1 RuleSet.new reqW (.identifier "role") "member"
      = runChecker 1 RuleSet.new reqW .roleChecker "member"
    ∧ evaluateCheck 1 RuleSet.new reqW (.identifier "user_id") "u-1" = ("u-1" == "u-1")
    ∧ evaluateCheck 1 RuleSet.new reqW (.identifier "zzz") "x" = false := by
  refine ⟨?_, ?_, ?_⟩
  · exact (evaluate_check_identifier_dispatch 1 RuleSet.new reqW "role" "member" "member"
      rfl).1 .roleChecker rfl
  · exact (evaluate_check_identifier_dispatch 1 RuleSet.new reqW "user_id" "u-1" "u-1"
      rfl).2.1 rfl "u-1" rfl
  · exact (evaluate_check_identifier_dispatch 1 RuleSet.new reqW "zzz" "x" "x"
      rfl).2.2 rfl rfl

/-- C2: a check whose rhs is the full-span interpolation form evaluates to
false whenever the target lacks the named attribute, for every lhs and
every rule set. -/
theorem check_missing_target_attr_false
    (fuel : Nat) (rs : RuleSet) (rq : Request) (lhs : LeftHandSide) (name : String)
    (h : rq.target name = none) :
    evaluateCheck fuel rs rq lhs ("%(" ++ name ++ ")s") = false := by
  unfold evaluateCheck evaluateCheckF
  rw [resolve_interp, h]

/-- C2 witness: the fail-closed example from the spec, with an identifier
lhs and with a literal lhs. -/
theorem check_missing_target_attr_false_witness :
    evaluateCheck 0 RuleSet.new reqW (.identifier "domain_id")
      ("%(" ++ "does_not_exist" ++ ")s") = false
    ∧ evaluateCheck 0 RuleSet.new reqW (.literal "x")
      ("%(" ++ "does_not_exist" ++ ")s") = false :=
  ⟨check_missing_target_attr_false 0 RuleSet.new reqW (.identifier "domain_id")
      "does_not_exist" rfl,
   check_missing_target_attr_false 0 RuleSet.new reqW (.literal "x")
      "does_not_exist" rfl⟩

/-- C3: interpolation recognizes exactly the single full-span form: an rhs
that decomposes into the open delimiter, an attribute name and the close
delimiter resolves to the target lookup of that name, with an absent
attribute yielding an undefined result; every other rhs is used verbatim. -/
theorem resolve_full_span (input : String) (target : String → Option String) :
    (∀ name : String, input = "%(" ++ name ++ ")s" →
      resolveTargetAttrRefs input target = target name)
    ∧ ((∀ name : String, input ≠ "%(" ++ name ++ ")s") →
      resolveTargetAttrRefs input target = some input) :=
  ⟨fun name h => by rw [h]; exact resolve_interp name target,
   fun h => resolve_verbatim input target h⟩

/-- C3 witness: a concrete full-span rhs resolves through the target, and
a concrete non-matching rhs is returned verbatim. -/
theorem resolve_full_span_witness :
    resolveTargetAttrRefs ("%(" ++ "a" ++ ")s") (fun _ => some "v") = some "v"
    ∧ resolveTargetAttrRefs "" (fun _ => some "v") = some "" :=
  ⟨(resolve_full_span ("%(" ++ "a" ++ ")s") (fun _ => some "v")).1 "a" rfl,
   (resolve_full_span "" (fun _ => some "v")).2 empty_ne_interp⟩

/-- C4: evaluating a rule name that has no entry in the rules mapping
returns false for every request; evaluation is total, so no error can be
raised. -/
theorem evaluate_undefined_rule_false
    (fuel : Nat) (rs : RuleSet) (name : String) (rq : Request)
    (h : rs.rules name = none) :
    evaluate fuel rs name rq = false := by
  unfold evaluate
  rw [h]

/-- C4 witness: an undefined rule name in the default rule set. -/
theorem evaluate_undefined_rule_false_witness :
    evaluate 7 RuleSet.new "non_existent_rule" reqW = false :=
  evaluate_undefined_rule_false 7 RuleSet.new "non_existent_rule" reqW rfl

/-- C5: parsing the unparenthesized mixed expression gives or applied to
and, identically to the left-parenthesized form and differently from the
right-parenthesized form: and binds tighter than or and parentheses
override the precedence. -/
theorem parser_precedence_examples :
    parseExpression "@ and ! or @"
      = some (.or (.and (.const true) (.const false)) (.const true))
    ∧ parseExpression "(@ and !) or @" = parseExpression "@ and ! or @"
    ∧ parseExpression "@ and (! or @)"
      = some (.and (.const true) (.or (.const false) (.const true)))
    ∧ parseExpression "@ and (! or @)" ≠ parseExpression "@ and ! or @" := by
  decide

/-- C6: the built-in rule checker returns exactly the evaluation of the
rule named by its rhs on the same rule set and request, hence false for an
undefined rule name; it is registered under the name rule in a new rule
set, and a check with identifier rule dispatches to it accordingly. The
recursion spends one unit of fuel. -/
theorem rule_checker_delegates (fuel : Nat) (rs : RuleSet) (rq : Request) (x : String) :
    (runChecker (fuel + 1) rs rq .ruleChecker x = evaluate fuel rs x rq)
    ∧ (rs.rules x = none → runChecker (fuel + 1) rs rq .ruleChecker x = false)
    ∧ (RuleSet.new.checkers "rule" = some .ruleChecker)
    ∧ (rs.checkers "rule" = some .ruleChecker →
      resolveTargetAttrRefs x rq.target = some x →
      evaluateCheck (fuel + 1) rs rq (.identifier "rule") x = evaluate fuel rs x rq) := by
  refine ⟨rfl, ?_, rfl, ?_⟩
  · intro h
    show evaluate fuel rs x rq = false
    unfold evaluate
    rw [h]
  · intro h1 h2
    unfold evaluateCheck evaluateCheckF
    rw [h2]
    simp only [h1]
    rfl

/-- C6 witness: in a rule set with one rule, the rule checker on an
undefined name gives false, and the check with identifier rule delegates. -/
theorem rule_checker_delegates_witness :
    runChecker 1 rsW reqW .ruleChecker "zzz" = false
    ∧ evaluateCheck 1 rsW reqW (.identifier "rule") "r" = evaluate 0 rsW "r" reqW :=
  ⟨(rule_checker_delegates 0 rsW reqW "zzz").2.1 rfl,
   (rule_checker_delegates 0 rsW reqW "r").2.2.2 rfl rfl⟩

/-- C7: add_rule reports an error exactly when the rule text fails to
parse, in which case the rule set is returned completely unchanged; on
success the parsed expression is stored under the name, replacing any
previous entry, every other rule is unchanged and the checkers mapping is
unchanged. -/
theorem add_rule_spec (rs : RuleSet) (name text : String) :
    (((rs.addRule name text).2.isSome = true) ↔ parseExpression text = none)
    ∧ (parseExpression text = none → (rs.addRule name text).1 = rs)
    ∧ (∀ e, parseExpression text = some e →
      (rs.addRule name text).1.rules name = some e
      ∧ (∀ n, n ≠ name → (rs.addRule name text).1.rules n = rs.rules n)
      ∧ (rs.addRule name text).1.checkers = rs.checkers) := by
  cases h : parseExpression text with
  | some e =>
    refine ⟨?_, ?_, ?_⟩
    · simp [RuleSet.addRule, h]
    · intro h2
      cases h2
    · intro e2 h2
      injection h2 with he
      subst he
      refine ⟨?_, ?_, ?_⟩
      · simp [RuleSet.addRule, h]
      · intro n hn
        simp [RuleSet.addRule, h, hn]
      · simp [RuleSet.addRule, h]
  | none =>
    refine ⟨?_, ?_, ?_⟩
    · simp [RuleSet.addRule, h]
    · intro _
      simp [RuleSet.addRule, h]
    · intro e2 h2
      cases h2

/-- C7 witness: a rule that parses is stored; a rule that fails to parse
leaves the rule set unchanged and surfaces the error. -/
theorem add_rule_spec_witness :
    (RuleSet.new.addRule "r" "@").1.rules "r" = some (.const true)
    ∧ (RuleSet.new.addRule "r" "(").1 = RuleSet.new
    ∧ (RuleSet.new.addRule "r" "(").2.isSome = true := by
  refine ⟨?_, ?_, ?_⟩
  · exact ((add_rule_spec RuleSet.new "r" "@").2.2 (.const true) (by decide)).1
  · exact (add_rule_spec RuleSet.new "r" "(").2.1 (by decide)
  · exact ((add_rule_spec RuleSet.new "r" "(").1).2 (by decide)

/-- C8 counterexample: removing the whitespace between the check token and
the following operator keyword changes the parse result, because the rhs
of a check greedily absorbs every following non-whitespace character, so
the claim that inserting or removing whitespace between tokens never
changes the parse result is false. -/
theorem whitespace_removal_changes_parse :
    parseExpression "x:y or @"
      = some (.or (.check (.identifier "x") "y") (.const true))
    ∧ parseExpression "x:yor@" = some (.check (.identifier "x") "yor@")
    ∧ parseExpression "x:y or @" ≠ parseExpression "x:yor@" := by
  decide

/-- C8 amended: varying the amount of whitespace between the tokens of the
given example leaves the parse result unchanged, and whitespace inside an
lhs token is a parse error; but deleting all whitespace between tokens can
merge a check with a following keyword and change the result. -/
theorem whitespace_between_tokens_amended :
    parseExpression "@ and !" = some (.and (.const true) (.const false))
    ∧ parseExpression "    @    and   !  " = parseExpression "@ and !"
    ∧ parseExpression "'foo bar':x" = none := by
  decide

/-- C9: any rhs that starts with the open delimiter and ends with the
close delimiter is a single interpolation whose attribute name is
everything strictly between the delimiters, even when that middle part
contains delimiter fragments; in particular the two concrete rhs from the
claim look up the greedy middle and the empty attribute name. -/
theorem interpolation_greedy :
    (∀ t : String → Option String,
      resolveTargetAttrRefs "%(a)s%(b)s" t = t "a)s%(b")
    ∧ (∀ t : String → Option String, resolveTargetAttrRefs "%()s" t = t "")
    ∧ (∀ (mid : String) (t : String → Option String),
      resolveTargetAttrRefs ("%(" ++ mid ++ ")s") t = t mid) :=
  ⟨fun _ => rfl, fun _ => rfl, fun mid t => resolve_interp mid t⟩

/-- C10: the parser needs no whitespace after the operator keywords: the
prefix keyword directly followed by a check parses as a negated check, and
the infix keyword directly between two constants parses as a disjunction. -/
theorem parser_keyword_no_whitespace :
    parseExpression "notx:y" = some (.not (.check (.identifier "x") "y"))
    ∧ parseExpression "@or@" = some (.or (.const true) (.const true)) := by
  decide

end OsloPolicy
